import Mathlib

/-!
Verification development for the dockerhub-mcp-server request pipeline.

The definitions below are a shallow embedding of the TypeScript sources:
  - src/services/cache.ts        (CacheService)
  - src/services/rate-limiter.ts (RateLimiterService.getBackoffDelay)
  - src/services/dockerhub-api.ts (DockerHubApiService.makeRequest and the
    401 fallbacks of getImageDetails / listTags)
  - src/types/mcp.ts             (the JSON-RPC Server front end, in the
    version consistent with the server unit tests of the repository: ping is
    answered inline, method-not-found uses code -32601, and sendError
    defaults to code -32603)

Time is in milliseconds (Nat); node-cache multiplies a TTL given in seconds
by 1000 when computing the absolute expiry instant.
-/

/-- Configuration of CacheService (src/config: ttl in seconds, maxKeys). -/
structure CacheConfig where
  ttl : Nat
  maxKeys : Nat
  deriving Repr, DecidableEq

/-- One stored entry of the node-cache backing store: the value and the
absolute expiry instant in milliseconds. -/
structure CacheEntry (V : Type) where
  value : V
  expiresAt : Nat
  deriving Repr, DecidableEq

/-- The backing store of CacheService: an association list keyed by the cache
key (node-cache keeps one live value per key). -/
structure CacheState (V : Type) where
  entries : List (String × CacheEntry V)
  deriving Repr, DecidableEq

/-- Raw lookup of an entry, expired or not. -/
def cacheLookup {V : Type} (s : CacheState V) (key : String) : Option (CacheEntry V) :=
  (s.entries.find? (fun p => p.1 == key)).map (fun p => p.2)

/-- CacheService.get: the stored value when the key is present and the entry
is unexpired; otherwise absent (node-cache treats an entry as expired once
its expiry instant lies strictly before the current time). -/
def cacheGet {V : Type} (s : CacheState V) (now : Nat) (key : String) : Option V :=
  match cacheLookup s key with
  | some e => if e.expiresAt < now then none else some e.value
  | none => none

/-- Overwrite the first binding of a key in the backing list, appending the
binding when the key is absent. -/
def setEntry {V : Type} (entries : List (String × CacheEntry V)) (key : String)
    (e : CacheEntry V) : List (String × CacheEntry V) :=
  match entries with
  | [] => [(key, e)]
  | (k, e₀) :: rest =>
    if k == key then (key, e) :: rest else (k, e₀) :: setEntry rest key e

/-- CacheService.set: store the value with expiry now + ttl seconds,
overwriting any prior entry for the key. A brand-new key is rejected when
the store already holds maxKeys entries (the node-cache cache-full error,
modelled as an unsuccessful write that leaves the store unchanged). -/
def cacheSet {V : Type} (cfg : CacheConfig) (s : CacheState V) (key : String) (v : V)
    (ttl : Nat) (now : Nat) : CacheState V × Bool :=
  if (s.entries.find? (fun p => p.1 == key)).isSome then
    (⟨setEntry s.entries key ⟨v, now + ttl * 1000⟩⟩, true)
  else if s.entries.length < cfg.maxKeys then
    (⟨s.entries ++ [(key, ⟨v, now + ttl * 1000⟩)]⟩, true)
  else
    (s, false)

/-- The TTL table of CacheService.setWithOperationTTL (the switch on the
operation name; an unknown operation falls back to the configured default). -/
def operationTTL (cfg : CacheConfig) (operation : String) : Nat :=
  if operation = "search" then 300
  else if operation = "image_details" then 600
  else if operation = "tags" then 900
  else if operation = "manifest" then 1800
  else if operation = "vulnerabilities" then 3600
  else if operation = "stats" then 7200
  else cfg.ttl

/-- CacheService.setWithOperationTTL: resolve the TTL from the operation name
and delegate to set. -/
def setWithOperationTTL {V : Type} (cfg : CacheConfig) (s : CacheState V) (key : String)
    (v : V) (operation : String) (now : Nat) : CacheState V × Bool :=
  cacheSet cfg s key v (operationTTL cfg operation) now

/-- CacheService.generateKey: the parameter object is modelled by the list of
its keys (in enumeration order) together with the stringified value of each
key. The keys are sorted, each rendered as key:value, joined with a bar. -/
def generateKey (operation : String) (keys : List String) (params : String → String) : String :=
  let sortedKeys := List.insertionSort (fun a b => a ≤ b) keys
  let sortedParams := String.intercalate "|" (sortedKeys.map (fun k => k ++ ":" ++ params k))
  "dockerhub:" ++ operation ++ ":" ++ sortedParams

/-- Jitter-free part of RateLimiterService.getBackoffDelay:
min(2 ^ attempt * 1000, 30000) milliseconds. -/
def backoffBase (attempt : Nat) : ℚ :=
  min ((2 : ℚ) ^ attempt * 1000) 30000

/-- RateLimiterService.getBackoffDelay; the jitter argument stands for the
value of Math.random(), a number in [0, 1). -/
def getBackoffDelay (attempt : Nat) (jitter : ℚ) : ℚ :=
  backoffBase attempt + jitter * 1000

/-- Substring test, the embedding of JS String.prototype.includes, by
recursion over the character list of the scanned string. -/
def charsIncl (pat : List Char) : List Char → Bool
  | [] => pat.isPrefixOf []
  | c :: rest => pat.isPrefixOf (c :: rest) || charsIncl pat rest

/-- Whether pat occurs as a substring of s (JS s.includes(pat)). -/
def strIncludes (s pat : String) : Bool := charsIncl pat.toList s.toList

/-- DockerHubApiService.getOperationType: infer the cache-TTL operation class
from the request path by substring matching. -/
def getOperationType (url : String) : String :=
  if strIncludes url "/search" then "search"
  else if strIncludes url "/tags" then "tags"
  else if strIncludes url "/manifests" then "manifest"
  else if strIncludes url "/vulnerabilities" then "vulnerabilities"
  else if strIncludes url "/stats" then "stats"
  else "image_details"

/-- The observable shape of one failed axios call: the HTTP status of the
response when one arrived, the error code property (e.g. ECONNRESET), and
the parsed Retry-After header in seconds when present. -/
structure HttpError where
  status : Option Nat
  code : Option String
  retryAfter : Option Nat
  deriving Repr, DecidableEq

/-- Outcome of one HTTP attempt: a response carrying its body (dataTruthy is
the JS truthiness of response.data, which gates the cache write), or an
error. -/
inductive HttpOutcome (T : Type) where
  | success (data : T) (dataTruthy : Bool)
  | failure (e : HttpError)
  deriving Repr, DecidableEq

/-- One suspension performed by makeRequest: the admission-gate wait, the
Retry-After wait of the 429 branch, or the exponential-backoff wait of the
server-error branch (recorded by attempt number). -/
inductive Wait where
  | rateLimit
  | retryAfterMs (ms : Nat)
  | backoff (attempt : Nat)
  deriving Repr, DecidableEq

/-- State threaded through makeRequest: the cache, the number of HTTP calls
issued so far, and the waits performed, in order. -/
structure MRState (T : Type) where
  cache : CacheState T
  httpCalls : Nat
  waits : List Wait
  deriving Repr, DecidableEq

/-- Guard of the 429 branch of the retry loop. -/
def is429 (e : HttpError) : Bool := e.status == some 429

/-- Whether the response status is at least 500 (false when no response). -/
def statusGE500 (e : HttpError) : Bool :=
  match e.status with
  | some s => 500 ≤ s
  | none => false

/-- Guard of the retryable-server-error branch:
error.response?.status >= 500 || error.code === ECONNRESET. -/
def isRetryableServerError (e : HttpError) : Bool :=
  statusGE500 e || e.code == some "ECONNRESET"

/-- The wait before a 429 retry: the Retry-After value in seconds times 1000,
or the 60000 ms default. -/
def waitTime429 (e : HttpError) : Nat :=
  match e.retryAfter with
  | some s => s * 1000
  | none => 60000

/-- The retry loop of DockerHubApiService.makeRequest (for attempt = 1..3).
attempts n is the outcome the HTTP client produces for the n-th call; fuel is
the number of loop iterations left; lastError models the mutable loop-scoped
lastError variable, thrown when the loop ends without returning. -/
def makeRequestGo {T : Type} (cfg : CacheConfig) (attempts : Nat → HttpOutcome T)
    (cacheKey : Option String) (url : String) (now : Nat) (attempt : Nat) (fuel : Nat)
    (lastError : Option HttpError) (st : MRState T) :
    Except (Option HttpError) T × MRState T :=
  match fuel with
  | 0 => (Except.error lastError, st)
  | fuel' + 1 =>
    let st₁ : MRState T := { st with httpCalls := st.httpCalls + 1 }
    match attempts attempt with
    | HttpOutcome.success data dataTruthy =>
      let cache₁ :=
        match cacheKey with
        | some key =>
          if dataTruthy then
            (setWithOperationTTL cfg st₁.cache key data (getOperationType url) now).1
          else st₁.cache
        | none => st₁.cache
      (Except.ok data, { st₁ with cache := cache₁ })
    | HttpOutcome.failure e =>
      if is429 e then
        makeRequestGo cfg attempts cacheKey url now (attempt + 1) fuel' (some e)
          { st₁ with waits := st₁.waits ++ [Wait.retryAfterMs (waitTime429 e)] }
      else if isRetryableServerError e then
        makeRequestGo cfg attempts cacheKey url now (attempt + 1) fuel' (some e)
          { st₁ with waits := st₁.waits ++ [Wait.backoff attempt] }
      else
        (Except.error (some e), st₁)

/-- DockerHubApiService.makeRequest: the admission check (a denial only
delays the request), the cache consultation when a cacheKey is given (a hit
returns at once), then the 3-attempt retry loop; a successful truthy
response is cached under the operation class inferred from the url. -/
def makeRequest {T : Type} (cfg : CacheConfig) (attempts : Nat → HttpOutcome T)
    (rlAllowed : Bool) (cacheKey : Option String) (url : String) (now : Nat)
    (cache₀ : CacheState T) : Except (Option HttpError) T × MRState T :=
  let st₀ : MRState T :=
    { cache := cache₀, httpCalls := 0,
      waits := if rlAllowed then [] else [Wait.rateLimit] }
  match cacheKey with
  | some key =>
    match cacheGet cache₀ now key with
    | some v => (Except.ok v, st₀)
    | none => makeRequestGo cfg attempts cacheKey url now 1 3 none st₀
  | none => makeRequestGo cfg attempts cacheKey url now 1 3 none st₀

/-- A failed attempt of the kind claim C3 describes: an HTTP status of 500
or above, or a connection-reset error that produced no response status. -/
def serverErrorish (e : HttpError) : Prop :=
  (∃ s, e.status = some s ∧ 500 ≤ s) ∨ (e.status = none ∧ e.code = some "ECONNRESET")

/-- JSON values exchanged by the RPC front end. -/
inductive JValue where
  | null
  | bool (b : Bool)
  | num (n : Int)
  | str (s : String)
  | arr (elems : List JValue)
  | obj (fields : List (String × JValue))

/-- An inbound JSON-RPC message: requests carry an id, notifications do not. -/
structure RpcRequest where
  id : Option JValue
  method : String
  params : JValue

/-- A registered method handler: handler(request) either returns a result or
throws with a message. -/
def Handler : Type := RpcRequest → Except String JValue

/-- State of the Server class of src/types/mcp.ts: the handlers map, the
constructor arguments, and the isInitialized flag. -/
structure ServerState where
  handlers : List (String × Handler)
  serverInfo : JValue
  capabilities : JValue
  isInitialized : Bool

/-- Everything the front end writes to stdout: responses, error responses
and notifications, one JSON line each. -/
inductive OutMsg where
  | response (id : JValue) (result : JValue)
  | errorMsg (id : JValue) (code : Int) (message : String)
  | notification (method : String) (params : JValue)

/-- Message defaulting of Server.sendError: error.message || Internal error. -/
def errMessage (msg : String) : String :=
  if msg = "" then "Internal error" else msg

/-- Server.sendError with its code argument (the call sites that omit it get
the default -32603). -/
def sendErrorMsg (id : JValue) (code : Int) (msg : String) : OutMsg :=
  OutMsg.errorMsg id code (errMessage msg)

/-- The result object of the initialize response. -/
def initializeResult (st : ServerState) : JValue :=
  JValue.obj [("protocolVersion", JValue.str "2025-06-18"),
    ("capabilities", st.capabilities), ("serverInfo", st.serverInfo)]

/-- Lookup of the method in the handlers map. -/
def lookupHandler (hs : List (String × Handler)) (method : String) : Option Handler :=
  (hs.find? (fun p => p.1 == method)).map (fun p => p.2)

/-- Server.handleRequest together with handleInitialize: returns the new
server state, the messages written to stdout in order, and the method whose
registered handler was invoked, when one was. Notifications (no id) are
ignored; initialize answers, emits the initialized notification and flips
the flag; ping is answered inline before the initialization gate; any other
method is rejected with a not-initialized error until initialization, then
dispatched through the handlers map (method-not-found when unregistered,
an internal-error response when the handler throws). -/
def handleRequest (st : ServerState) (req : RpcRequest) :
    ServerState × List OutMsg × Option String :=
  match req.id with
  | none => (st, [], none)
  | some id =>
    if req.method = "initialize" then
      ({ st with isInitialized := true },
       [OutMsg.response id (initializeResult st),
        OutMsg.notification "initialized" (JValue.obj [])], none)
    else if req.method = "ping" then
      (st, [OutMsg.response id (JValue.obj [("pong", JValue.bool true)])], none)
    else if st.isInitialized = false ∧ req.method ≠ "initialize" then
      (st, [sendErrorMsg id (-32603) "Server not initialized"], none)
    else
      match lookupHandler st.handlers req.method with
      | none =>
        (st, [sendErrorMsg id (-32601) ("Method not found: " ++ req.method)], none)
      | some h =>
        match h req with
        | Except.ok result => (st, [OutMsg.response id result], some req.method)
        | Except.error msg => (st, [sendErrorMsg id (-32603) msg], some req.method)

/-- A registered tools/call handler used by the concrete scenarios below. -/
def toolsCallHandler : Handler := fun _ => Except.ok (JValue.str "tool result")

/-- A registered handler that throws, producing an internal-error response. -/
def throwingHandler : Handler := fun _ => Except.error "boom"

/-- A freshly constructed server, before any initialize exchange. -/
def serverUninit : ServerState :=
  { handlers := [("tools/call", toolsCallHandler), ("boom/method", throwingHandler)],
    serverInfo := JValue.obj [("name", JValue.str "dockerhub-mcp-server"),
      ("version", JValue.str "1.0.0")],
    capabilities := JValue.obj [],
    isInitialized := false }

/-- The same server after the initialize exchange. -/
def serverInit : ServerState := { serverUninit with isInitialized := true }

/-- A ping request carrying an id. -/
def pingRequest : RpcRequest :=
  { id := some (JValue.num 1), method := "ping", params := JValue.obj [] }

/-- A tools/call request carrying an id. -/
def toolsCallRequest : RpcRequest :=
  { id := some (JValue.num 2), method := "tools/call", params := JValue.obj [] }

/-- An initialize request carrying an id. -/
def initializeRequest : RpcRequest :=
  { id := some (JValue.num 0), method := "initialize", params := JValue.obj [] }

/-- A request whose registered handler throws. -/
def boomRequest : RpcRequest :=
  { id := some (JValue.num 3), method := "boom/method", params := JValue.obj [] }

/-- A request for a method nobody registered. -/
def noSuchRequest : RpcRequest :=
  { id := some (JValue.num 4), method := "no/such", params := JValue.obj [] }

/-- Permissions sub-object of a DockerHub image record. -/
structure RepoPermissions where
  read : Bool
  write : Bool
  admin : Bool
  deriving Repr, DecidableEq

/-- DockerHub image record (src/types); the source field named after the
Lean keyword for namespaces is rendered nameSpace here. -/
structure DockerHubImage where
  id : Nat
  name : String
  nameSpace : String
  repository_type : String
  status : Nat
  description : String
  is_private : Bool
  is_automated : Bool
  can_edit : Bool
  star_count : Nat
  pull_count : Nat
  last_updated : String
  date_registered : String
  collaborator_count : Nat
  hub_user : String
  has_starred : Bool
  full_description : String
  permissions : RepoPermissions
  deriving Repr, DecidableEq

/-- DockerHub tag record (src/types, the fields used by listTags). -/
structure DockerHubTag where
  id : Nat
  name : String
  last_updated : String
  digest : String
  size : Nat
  architecture : String
  os : String
  deriving Repr, DecidableEq

/-- A page of tags as returned by listTags. -/
structure TagsPage where
  results : List DockerHubTag
  count : Nat
  deriving Repr, DecidableEq

/-- JS: split the repository on slashes, take the last element, defaulting
to the repository itself when that element is empty. -/
def splitPop (repository : String) : String :=
  match (repository.splitOn "/").getLast? with
  | some s => if s = "" then repository else s
  | none => repository

/-- JS: split the repository on slashes, take the first element, defaulting
to the string library when that element is empty. -/
def splitHead (repository : String) : String :=
  match (repository.splitOn "/").head? with
  | some s => if s = "" then "library" else s
  | none => "library"

/-- The placeholder image record getImageDetails returns when a 401 was
received and the search fallback found nothing (nowIso stands for
new Date().toISOString()). -/
def imageDetailsFallback (repository nowIso : String) : DockerHubImage :=
  { id := 0
    name := splitPop repository
    nameSpace := splitHead repository
    repository_type := "image"
    status := 1
    description := "Image details not available without authentication"
    is_private := false
    is_automated := false
    can_edit := false
    star_count := 0
    pull_count := 0
    last_updated := nowIso
    date_registered := nowIso
    collaborator_count := 0
    hub_user := "unknown"
    has_starred := false
    full_description := "Image details not available without authentication"
    permissions := { read := true, write := false, admin := false } }

/-- The 401 branch of DockerHubApiService.getImageDetails: substitute the
repo info found by the public-search fallback or, failing that, the
placeholder record. -/
def getImageDetails401 (repository : String) (searchFound : Option DockerHubImage)
    (nowIso : String) : DockerHubImage :=
  match searchFound with
  | some repoInfo => repoInfo
  | none => imageDetailsFallback repository nowIso

/-- The mock tags page DockerHubApiService.listTags returns on 401. -/
def listTags401 (nowIso : String) : TagsPage :=
  { results := [
      { id := 1
        name := "latest"
        last_updated := nowIso
        digest := "sha256:0000000000000000000000000000000000000000000000000000000000000000"
        size := 0
        architecture := "unknown"
        os := "unknown" }]
    count := 1 }

/-- Helper: after a successful write, the entry stored for the key carries
exactly the written value and expiry. -/
theorem find?_setEntry {V : Type} (entries : List (String × CacheEntry V)) (key : String)
    (e : CacheEntry V) :
    (setEntry entries key e).find? (fun p => p.1 == key) = some (key, e) := by
  induction entries with
  | nil => simp [setEntry]
  | cons hd tl ih =>
    obtain ⟨k, e₀⟩ := hd
    rw [setEntry]
    by_cases hk : k = key
    · subst hk
      simp
    · rw [if_neg (by simp [hk])]
      rw [List.find?_cons_of_neg _ (by simp [hk])]
      exact ih

theorem cacheSet_lookup {V : Type} (cfg : CacheConfig) (s : CacheState V) (key : String)
    (v : V) (ttl : Nat) (now : Nat) (hok : (cacheSet cfg s key v ttl now).2 = true) :
    cacheLookup (cacheSet cfg s key v ttl now).1 key = some ⟨v, now + ttl * 1000⟩ := by
  unfold cacheSet at *
  by_cases hmem : (s.entries.find? (fun p => p.1 == key)).isSome
  · simp only [hmem, if_pos, cacheLookup]
    rw [find?_setEntry]
    rfl
  · simp only [hmem, if_neg, Bool.false_eq_true, not_false_eq_true] at hok ⊢
    by_cases hlen : s.entries.length < cfg.maxKeys
    · simp only [hlen, if_pos, cacheLookup, List.find?_append]
      rw [Option.not_isSome_iff_eq_none] at hmem
      simp [hmem]
    · simp [hlen] at hok

/-- C4: setWithOperationTTL stores the value with TTL 300s for operation
"search", 600s for "image_details", 900s for "tags", 1800s for "manifest",
3600s for "vulnerabilities", 7200s for "stats", and the configured default
TTL for every other operation name; whenever the write succeeds, the entry
stored under the key holds the value with expiry now plus that TTL. -/
theorem C4_setWithOperationTTL_table {V : Type} (cfg : CacheConfig) (s : CacheState V)
    (key : String) (v : V) (operation other : String) (now : Nat)
    (hother : other ∉ (["search", "image_details", "tags", "manifest",
      "vulnerabilities", "stats"] : List String)) :
    operationTTL cfg "search" = 300 ∧
    operationTTL cfg "image_details" = 600 ∧
    operationTTL cfg "tags" = 900 ∧
    operationTTL cfg "manifest" = 1800 ∧
    operationTTL cfg "vulnerabilities" = 3600 ∧
    operationTTL cfg "stats" = 7200 ∧
    operationTTL cfg other = cfg.ttl ∧
    setWithOperationTTL cfg s key v operation now
      = cacheSet cfg s key v (operationTTL cfg operation) now ∧
    ((setWithOperationTTL cfg s key v operation now).2 = true →
      cacheLookup (setWithOperationTTL cfg s key v operation now).1 key
        = some ⟨v, now + operationTTL cfg operation * 1000⟩) := by
  simp only [List.mem_cons, List.mem_singleton, not_or] at hother
  obtain ⟨h1, h2, h3, h4, h5, h6, _⟩ := hother
  refine ⟨rfl, rfl, rfl, rfl, rfl, rfl, ?_, rfl, ?_⟩
  · simp [operationTTL, h1, h2, h3, h4, h5, h6]
  · intro hok
    exact cacheSet_lookup cfg s key v (operationTTL cfg operation) now hok

/-- Witness for C4 at a concrete unknown operation name. -/
theorem C4_witness :
    ("other" ∉ (["search", "image_details", "tags", "manifest",
      "vulnerabilities", "stats"] : List String)) ∧
    (operationTTL ⟨250, 1000⟩ "search" = 300 ∧
    operationTTL ⟨250, 1000⟩ "image_details" = 600 ∧
    operationTTL ⟨250, 1000⟩ "tags" = 900 ∧
    operationTTL ⟨250, 1000⟩ "manifest" = 1800 ∧
    operationTTL ⟨250, 1000⟩ "vulnerabilities" = 3600 ∧
    operationTTL ⟨250, 1000⟩ "stats" = 7200 ∧
    operationTTL ⟨250, 1000⟩ "other" = (⟨250, 1000⟩ : CacheConfig).ttl ∧
    setWithOperationTTL ⟨250, 1000⟩ (⟨[]⟩ : CacheState Nat) "k" 42 "search" 0
      = cacheSet ⟨250, 1000⟩ ⟨[]⟩ "k" 42 (operationTTL ⟨250, 1000⟩ "search") 0 ∧
    ((setWithOperationTTL ⟨250, 1000⟩ (⟨[]⟩ : CacheState Nat) "k" 42 "search" 0).2 = true →
      cacheLookup (setWithOperationTTL ⟨250, 1000⟩ (⟨[]⟩ : CacheState Nat) "k" 42 "search" 0).1 "k"
        = some ⟨42, 0 + operationTTL ⟨250, 1000⟩ "search" * 1000⟩)) :=
  ⟨by decide, C4_setWithOperationTTL_table ⟨250, 1000⟩ ⟨[]⟩ "k" 42 "search" "other" 0 (by decide)⟩

/-- C5: generateKey is invariant under the order in which the parameter keys
are enumerated: two parameter maps that are equal as key-value maps (the key
lists are permutations of each other and the values agree on every key)
produce the same cache-key string. -/
theorem C5_generateKey_order_invariant (operation : String) (keys₁ keys₂ : List String)
    (params₁ params₂ : String → String) (hperm : keys₁.Perm keys₂)
    (hagree : ∀ k ∈ keys₁, params₁ k = params₂ k) :
    generateKey operation keys₁ params₁ = generateKey operation keys₂ params₂ := by
  have hsort : List.insertionSort (fun a b => a ≤ b) keys₁
      = List.insertionSort (fun a b => a ≤ b) keys₂ :=
    List.eq_of_perm_of_sorted
      ((List.perm_insertionSort _ _).trans (hperm.trans (List.perm_insertionSort _ _).symm))
      (List.sorted_insertionSort _ _) (List.sorted_insertionSort _ _)
  have hmap : (List.insertionSort (fun a b => a ≤ b) keys₁).map
      (fun k => k ++ ":" ++ params₁ k)
      = (List.insertionSort (fun a b => a ≤ b) keys₂).map (fun k => k ++ ":" ++ params₂ k) := by
    rw [hsort]
    refine List.map_congr_left (fun k hk => ?_)
    have hk₁ : k ∈ keys₁ := hperm.symm.mem_iff.mp ((List.mem_insertionSort _).mp hk)
    rw [hagree k hk₁]
  simp only [generateKey]
  rw [hmap]

/-- Witness for C5 at a two-key parameter map supplied in both orders. -/
theorem C5_witness :
    (["a", "b"] : List String).Perm ["b", "a"] ∧
    generateKey "op" ["a", "b"] (fun k => if k = "a" then "1" else "2")
      = generateKey "op" ["b", "a"] (fun k => if k = "a" then "1" else "2") :=
  ⟨by decide,
   C5_generateKey_order_invariant "op" ["a", "b"] ["b", "a"] _ _ (by decide)
     (fun _ _ => rfl)⟩

/-- C6: getBackoffDelay of attempt k with jitter j in [0,1) equals
min(2 ^ k * 1000, 30000) plus a jitter term j * 1000 lying in [0, 1000);
the jitter-free part is non-decreasing in k; and the whole delay stays
strictly below the 30000 ms cap plus the 1000 ms jitter bound. -/
theorem C6_backoff_shape (k k' : Nat) (j : ℚ) (hkk : k ≤ k') (h0 : 0 ≤ j) (h1 : j < 1) :
    getBackoffDelay k j = min ((2 : ℚ) ^ k * 1000) 30000 + j * 1000 ∧
    0 ≤ j * 1000 ∧ j * 1000 < 1000 ∧
    backoffBase k ≤ backoffBase k' ∧
    getBackoffDelay k j < 30000 + 1000 := by
  have hjlt : j * 1000 < 1000 := by nlinarith
  have hmono : backoffBase k ≤ backoffBase k' := by
    unfold backoffBase
    refine min_le_min ?_ le_rfl
    have hpow := pow_le_pow_right₀ (by norm_num : (1 : ℚ) ≤ 2) hkk
    nlinarith
  refine ⟨rfl, by nlinarith, hjlt, hmono, ?_⟩
  unfold getBackoffDelay
  have hcap : backoffBase k ≤ 30000 := min_le_right _ _
  nlinarith [hcap]

/-- Witness for C6 at attempts 1 ≤ 2 and jitter 0. -/
theorem C6_witness :
    (1 : Nat) ≤ 2 ∧ (0 : ℚ) ≤ 0 ∧ (0 : ℚ) < 1 ∧
    (getBackoffDelay 1 0 = min ((2 : ℚ) ^ (1 : Nat) * 1000) 30000 + 0 * 1000 ∧
    (0 : ℚ) ≤ 0 * 1000 ∧ (0 : ℚ) * 1000 < 1000 ∧
    backoffBase 1 ≤ backoffBase 2 ∧
    getBackoffDelay 1 0 < 30000 + 1000) :=
  ⟨by decide, le_refl 0, zero_lt_one,
   C6_backoff_shape 1 2 0 (by decide) (le_refl 0) zero_lt_one⟩

/-- Helper: a server-errorish failure never takes the 429 branch. -/
theorem is429_false_of_serverErrorish (e : HttpError) (h : serverErrorish e) :
    is429 e = false := by
  rcases h with ⟨s, hs, h5⟩ | ⟨hn, _⟩
  · simp only [is429, hs, beq_eq_false_iff_ne, ne_eq, Option.some.injEq]
    omega
  · simp [is429, hn]

/-- Helper: a server-errorish failure takes the retryable branch. -/
theorem retryable_of_serverErrorish (e : HttpError) (h : serverErrorish e) :
    isRetryableServerError e = true := by
  rcases h with ⟨s, hs, h5⟩ | ⟨hn, hc⟩
  · simp [isRetryableServerError, statusGE500, hs, h5]
  · simp [isRetryableServerError, statusGE500, hn, hc]

/-- C1: when the cache holds an unexpired value for the cacheKey, makeRequest
returns that cached value with zero HTTP calls and an unchanged cache; hence
an identical repeated call within the TTL of the entry — whatever the upstream
would do (attempts₂) — again issues zero upstream calls and returns the same
payload. -/
theorem C1_cache_hit_short_circuit {T : Type} (cfg : CacheConfig)
    (attempts attempts₂ : Nat → HttpOutcome T) (rlAllowed rl₂ : Bool)
    (key url url₂ : String) (now : Nat) (cache₀ : CacheState T) (v : T)
    (hhit : cacheGet cache₀ now key = some v) :
    (makeRequest cfg attempts rlAllowed (some key) url now cache₀).1 = Except.ok v ∧
    (makeRequest cfg attempts rlAllowed (some key) url now cache₀).2.httpCalls = 0 ∧
    (makeRequest cfg attempts rlAllowed (some key) url now cache₀).2.cache = cache₀ ∧
    (makeRequest cfg attempts₂ rl₂ (some key) url₂ now cache₀).1 = Except.ok v ∧
    (makeRequest cfg attempts₂ rl₂ (some key) url₂ now cache₀).2.httpCalls = 0 :=
  ⟨by simp [makeRequest, hhit], by simp [makeRequest, hhit], by simp [makeRequest, hhit],
   by simp [makeRequest, hhit], by simp [makeRequest, hhit]⟩

/-- Witness for C1: a cache holding key k with value 42, unexpired at the
query instant, short-circuits two different upstream behaviours. -/
theorem C1_witness :
    cacheGet (⟨[("k", ⟨42, 5000⟩)]⟩ : CacheState Nat) 1000 "k" = some 42 ∧
    ((makeRequest ⟨250, 1000⟩ (fun _ => HttpOutcome.failure ⟨some 500, none, none⟩) true
        (some "k") "/v2/a" 1000 ⟨[("k", ⟨42, 5000⟩)]⟩).1 = Except.ok 42 ∧
    (makeRequest ⟨250, 1000⟩ (fun _ => HttpOutcome.failure ⟨some 500, none, none⟩) true
        (some "k") "/v2/a" 1000 ⟨[("k", ⟨42, 5000⟩)]⟩).2.httpCalls = 0 ∧
    (makeRequest ⟨250, 1000⟩ (fun _ => HttpOutcome.failure ⟨some 500, none, none⟩) true
        (some "k") "/v2/a" 1000 ⟨[("k", ⟨42, 5000⟩)]⟩).2.cache = ⟨[("k", ⟨42, 5000⟩)]⟩ ∧
    (makeRequest ⟨250, 1000⟩ (fun _ => HttpOutcome.success 7 true) false
        (some "k") "/v2/b" 1000 ⟨[("k", ⟨42, 5000⟩)]⟩).1 = Except.ok 42 ∧
    (makeRequest ⟨250, 1000⟩ (fun _ => HttpOutcome.success 7 true) false
        (some "k") "/v2/b" 1000 ⟨[("k", ⟨42, 5000⟩)]⟩).2.httpCalls = 0) :=
  ⟨by decide,
   C1_cache_hit_short_circuit ⟨250, 1000⟩ (fun _ => HttpOutcome.failure ⟨some 500, none, none⟩)
     (fun _ => HttpOutcome.success 7 true) true false "k" "/v2/a" "/v2/b" 1000
     ⟨[("k", ⟨42, 5000⟩)]⟩ 42 (by decide)⟩

/-- C3: when every attempt fails with a status of 500 or above (or a
connection-reset error) and the cache cannot answer, exactly 3 HTTP attempts
are performed, a backoff delay is awaited after each failed attempt
(in particular between consecutive attempts), the last encountered error is
raised, and the cache is untouched. -/
theorem C3_retry_exhaustion {T : Type} (cfg : CacheConfig) (attempts : Nat → HttpOutcome T)
    (e : Nat → HttpError) (rlAllowed : Bool) (cacheKey : Option String) (url : String)
    (now : Nat) (cache₀ : CacheState T)
    (hmiss : ∀ k, cacheKey = some k → cacheGet cache₀ now k = none)
    (hfail : ∀ i, attempts i = HttpOutcome.failure (e i))
    (hserr : ∀ i, serverErrorish (e i)) :
    (makeRequest cfg attempts rlAllowed cacheKey url now cache₀).1
      = Except.error (some (e 3)) ∧
    (makeRequest cfg attempts rlAllowed cacheKey url now cache₀).2.httpCalls = 3 ∧
    (makeRequest cfg attempts rlAllowed cacheKey url now cache₀).2.waits
      = (if rlAllowed then [] else [Wait.rateLimit])
        ++ [Wait.backoff 1, Wait.backoff 2, Wait.backoff 3] ∧
    (makeRequest cfg attempts rlAllowed cacheKey url now cache₀).2.cache = cache₀ := by
  have g1 := is429_false_of_serverErrorish (e 1) (hserr 1)
  have g2 := is429_false_of_serverErrorish (e 2) (hserr 2)
  have g3 := is429_false_of_serverErrorish (e 3) (hserr 3)
  have r1 := retryable_of_serverErrorish (e 1) (hserr 1)
  have r2 := retryable_of_serverErrorish (e 2) (hserr 2)
  have r3 := retryable_of_serverErrorish (e 3) (hserr 3)
  have hgo : ∀ ck : Option String, makeRequestGo cfg attempts ck url now 1 3 none
      ⟨cache₀, 0, if rlAllowed then [] else [Wait.rateLimit]⟩
      = (Except.error (some (e 3)),
         ⟨cache₀, 3, (if rlAllowed then [] else [Wait.rateLimit])
           ++ [Wait.backoff 1, Wait.backoff 2, Wait.backoff 3]⟩) := by
    intro ck
    rw [makeRequestGo]
    simp only [hfail 1, g1, r1, Bool.false_eq_true, if_false, if_true]
    rw [makeRequestGo]
    simp only [hfail 2, g2, r2, Bool.false_eq_true, if_false, if_true]
    rw [makeRequestGo]
    simp only [hfail 3, g3, r3, Bool.false_eq_true, if_false, if_true]
    rw [makeRequestGo]
    simp [List.append_assoc]
  rcases cacheKey with _ | key
  · simp only [makeRequest]
    rw [hgo none]
    exact ⟨rfl, rfl, rfl, rfl⟩
  · have hm := hmiss key rfl
    simp only [makeRequest, hm]
    rw [hgo (some key)]
    exact ⟨rfl, rfl, rfl, rfl⟩

/-- Witness for C3: every attempt answers HTTP 500; the call raises the last
error after exactly three attempts with a backoff wait after each. -/
theorem C3_witness :
    (makeRequest ⟨250, 1000⟩ (fun _ => HttpOutcome.failure (T := Nat) ⟨some 500, none, none⟩)
        true none "/v2/a" 0 ⟨[]⟩).1 = Except.error (some ⟨some 500, none, none⟩) ∧
    (makeRequest ⟨250, 1000⟩ (fun _ => HttpOutcome.failure (T := Nat) ⟨some 500, none, none⟩)
        true none "/v2/a" 0 ⟨[]⟩).2.httpCalls = 3 ∧
    (makeRequest ⟨250, 1000⟩ (fun _ => HttpOutcome.failure (T := Nat) ⟨some 500, none, none⟩)
        true none "/v2/a" 0 ⟨[]⟩).2.waits
      = [Wait.backoff 1, Wait.backoff 2, Wait.backoff 3] ∧
    (makeRequest ⟨250, 1000⟩ (fun _ => HttpOutcome.failure (T := Nat) ⟨some 500, none, none⟩)
        true none "/v2/a" 0 ⟨[]⟩).2.cache = ⟨[]⟩ :=
  C3_retry_exhaustion ⟨250, 1000⟩ (fun _ => HttpOutcome.failure ⟨some 500, none, none⟩)
    (fun _ => ⟨some 500, none, none⟩) true none "/v2/a" 0 ⟨[]⟩
    (fun _ hk => nomatch hk) (fun _ => rfl)
    (fun _ => Or.inl ⟨500, rfl, le_refl 500⟩)

/-- Helper for C10: whenever the retry loop ends in an error, it leaves the
cache exactly as it found it. -/
theorem makeRequestGo_cache_of_error {T : Type} (cfg : CacheConfig)
    (attempts : Nat → HttpOutcome T) (cacheKey : Option String) (url : String) (now : Nat) :
    ∀ (fuel attempt : Nat) (lastError err : Option HttpError) (st : MRState T),
      (makeRequestGo cfg attempts cacheKey url now attempt fuel lastError st).1
        = Except.error err →
      (makeRequestGo cfg attempts cacheKey url now attempt fuel lastError st).2.cache
        = st.cache := by
  intro fuel
  induction fuel with
  | zero =>
    intro attempt lastError err st _
    rw [makeRequestGo]
  | succ n ih =>
    intro attempt lastError err st h
    rw [makeRequestGo] at h ⊢
    cases hatt : attempts attempt with
    | success data dataTruthy => simp [hatt] at h
    | failure e =>
      simp only [hatt] at h ⊢
      by_cases h4 : is429 e = true
      · simp only [h4, if_true] at h ⊢
        exact ih (attempt + 1) (some e) err _ h
      · simp only [h4, if_false, Bool.not_eq_true] at h ⊢
        by_cases h5 : isRetryableServerError e = true
        · simp only [h5, if_true] at h ⊢
          exact ih (attempt + 1) (some e) err _ h
        · simp only [h5, if_false, Bool.not_eq_true] at h ⊢
          rfl

/-- C10: a makeRequest call that terminates by raising an error performs no
cache write — the final cache state is exactly the initial one; population
happens only on a successful HTTP response. -/
theorem C10_no_cache_write_on_error {T : Type} (cfg : CacheConfig)
    (attempts : Nat → HttpOutcome T) (rlAllowed : Bool) (cacheKey : Option String)
    (url : String) (now : Nat) (cache₀ : CacheState T) (err : Option HttpError)
    (herr : (makeRequest cfg attempts rlAllowed cacheKey url now cache₀).1
      = Except.error err) :
    (makeRequest cfg attempts rlAllowed cacheKey url now cache₀).2.cache = cache₀ := by
  unfold makeRequest at herr ⊢
  cases cacheKey with
  | none =>
    exact makeRequestGo_cache_of_error cfg attempts none url now 3 1 none err _ herr
  | some key =>
    cases hget : cacheGet cache₀ now key with
    | some v => simp [hget] at herr
    | none =>
      simp only [hget] at herr ⊢
      exact makeRequestGo_cache_of_error cfg attempts (some key) url now 3 1 none err _ herr

/-- Witness for C10: a non-retryable 404 raises after one attempt and the
cache is left untouched. -/
theorem C10_witness :
    (makeRequest ⟨250, 1000⟩ (fun _ => HttpOutcome.failure (T := Nat) ⟨some 404, none, none⟩)
        true (some "k") "/v2/a" 0 ⟨[]⟩).1 = Except.error (some ⟨some 404, none, none⟩) ∧
    (makeRequest ⟨250, 1000⟩ (fun _ => HttpOutcome.failure (T := Nat) ⟨some 404, none, none⟩)
        true (some "k") "/v2/a" 0 ⟨[]⟩).2.cache = ⟨[]⟩ :=
  ⟨rfl,
   C10_no_cache_write_on_error ⟨250, 1000⟩ (fun _ => HttpOutcome.failure ⟨some 404, none, none⟩)
     true (some "k") "/v2/a" 0 ⟨[]⟩ (some ⟨some 404, none, none⟩) rfl⟩

/-- C2 counterexample: before initialization, a ping request — which has an
id and a method other than initialize — is answered with a pong response,
not with a not-initialized error (ping is handled before the initialization
gate). -/
theorem C2_counterexample :
    handleRequest serverUninit pingRequest
      = (serverUninit,
         [OutMsg.response (JValue.num 1) (JValue.obj [("pong", JValue.bool true)])],
         none) ∧
    pingRequest.method ≠ "initialize" ∧ pingRequest.id = some (JValue.num 1) ∧
    serverUninit.isInitialized = false :=
  ⟨rfl, by decide, rfl, rfl⟩

/-- C2 (amended): before a successful initialize exchange, every inbound
request that has an id and a method other than initialize and other than
ping is answered with the not-initialized error and its handler is never
invoked; after the initialize exchange completes, the same request is
dispatched to its registered handler. -/
theorem C2_amended_handshake_gate (st : ServerState) (req initReq : RpcRequest)
    (rid iid : JValue) (h : Handler)
    (hid : req.id = some rid) (hinit : st.isInitialized = false)
    (hm1 : req.method ≠ "initialize") (hm2 : req.method ≠ "ping")
    (hii : initReq.id = some iid) (him : initReq.method = "initialize")
    (hh : lookupHandler st.handlers req.method = some h) :
    handleRequest st req
      = (st, [OutMsg.errorMsg rid (-32603) "Server not initialized"], none) ∧
    (handleRequest (handleRequest st initReq).1 req).2.2 = some req.method ∧
    (handleRequest (handleRequest st initReq).1 req).2.1
      = [match h req with
         | Except.ok r => OutMsg.response rid r
         | Except.error m => OutMsg.errorMsg rid (-32603) (errMessage m)] := by
  have hst1 : (handleRequest st initReq).1 = { st with isInitialized := true } := by
    simp [handleRequest, hii, him]
  refine ⟨?_, ?_, ?_⟩
  · simp [handleRequest, hid, hm1, hm2, hinit, sendErrorMsg, errMessage]
  · rw [hst1]
    cases hr : h req <;> simp [handleRequest, hid, hm1, hm2, hh, hr]
  · rw [hst1]
    cases hr : h req <;> simp [handleRequest, hid, hm1, hm2, hh, hr, sendErrorMsg]

/-- Witness for the amended C2 at a concrete tools/call request. -/
theorem C2_witness :
    handleRequest serverUninit toolsCallRequest
      = (serverUninit,
         [OutMsg.errorMsg (JValue.num 2) (-32603) "Server not initialized"], none) ∧
    (handleRequest (handleRequest serverUninit initializeRequest).1 toolsCallRequest).2.2
      = some "tools/call" ∧
    (handleRequest (handleRequest serverUninit initializeRequest).1 toolsCallRequest).2.1
      = [OutMsg.response (JValue.num 2) (JValue.str "tool result")] :=
  C2_amended_handshake_gate serverUninit toolsCallRequest initializeRequest
    (JValue.num 2) (JValue.num 0) toolsCallHandler rfl rfl (by decide) (by decide)
    rfl rfl rfl

/-- C7: in the initialized state, a request whose method is ping is always
answered with the pong acknowledgement, although no ping handler is
registered; no error response (in particular no method-not-found) is
emitted for it. -/
theorem C7_ping_builtin (st : ServerState) (req : RpcRequest) (id : JValue)
    (hinit : st.isInitialized = true) (hm : req.method = "ping")
    (hid : req.id = some id)
    (hnoreg : lookupHandler st.handlers "ping" = none) :
    handleRequest st req
      = (st, [OutMsg.response id (JValue.obj [("pong", JValue.bool true)])], none) ∧
    ∀ i c m, OutMsg.errorMsg i c m ∉ (handleRequest st req).2.1 := by
  have h1 : req.method ≠ "initialize" := by rw [hm]; decide
  refine ⟨?_, ?_⟩
  · simp [handleRequest, hid, hm, h1]
  · intro i c m
    simp [handleRequest, hid, hm, h1]

/-- Witness for C7: ping against the initialized concrete server, where only
tools/call and boom/method are registered. -/
theorem C7_witness :
    serverInit.isInitialized = true ∧
    lookupHandler serverInit.handlers "ping" = none ∧
    handleRequest serverInit pingRequest
      = (serverInit,
         [OutMsg.response (JValue.num 1) (JValue.obj [("pong", JValue.bool true)])],
         none) :=
  ⟨rfl, rfl, (C7_ping_builtin serverInit pingRequest (JValue.num 1) rfl rfl rfl rfl).1⟩

/-- C8 counterexample: the not-initialized response and the internal-error
response both carry code -32603, so the three error codes the front end
emits are not pairwise distinct. -/
theorem C8_counterexample :
    (handleRequest serverUninit toolsCallRequest).2.1
      = [OutMsg.errorMsg (JValue.num 2) (-32603) "Server not initialized"] ∧
    (handleRequest serverInit boomRequest).2.1
      = [OutMsg.errorMsg (JValue.num 3) (-32603) "boom"] ∧
    (handleRequest serverInit noSuchRequest).2.1
      = [OutMsg.errorMsg (JValue.num 4) (-32601) ("Method not found: " ++ "no/such")] :=
  ⟨rfl, rfl, rfl⟩

/-- C8 (amended): each of the three error kinds carries a numeric code:
method-not-found uses -32601, while not-initialized and internal errors both
use -32603; hence the method-not-found code is distinct from the other two,
but the codes are not pairwise distinct. -/
theorem C8_amended_codes (st₁ st₂ st₃ : ServerState) (r₁ r₂ r₃ : RpcRequest)
    (i₁ i₂ i₃ : JValue) (h₃ : Handler) (msg : String)
    (h1i : st₁.isInitialized = false) (h1id : r₁.id = some i₁)
    (h1m : r₁.method ≠ "initialize") (h1p : r₁.method ≠ "ping")
    (h2i : st₂.isInitialized = true) (h2id : r₂.id = some i₂)
    (h2m : r₂.method ≠ "initialize") (h2p : r₂.method ≠ "ping")
    (h2h : lookupHandler st₂.handlers r₂.method = none)
    (h3i : st₃.isInitialized = true) (h3id : r₃.id = some i₃)
    (h3m : r₃.method ≠ "initialize") (h3p : r₃.method ≠ "ping")
    (h3h : lookupHandler st₃.handlers r₃.method = some h₃)
    (h3r : h₃ r₃ = Except.error msg) (hmsg : msg ≠ "") :
    (handleRequest st₁ r₁).2.1 = [OutMsg.errorMsg i₁ (-32603) "Server not initialized"] ∧
    (handleRequest st₂ r₂).2.1
      = [OutMsg.errorMsg i₂ (-32601) ("Method not found: " ++ r₂.method)] ∧
    (handleRequest st₃ r₃).2.1 = [OutMsg.errorMsg i₃ (-32603) msg] ∧
    ((-32601 : Int) ≠ (-32603 : Int)) := by
  have hne : "Method not found: " ++ r₂.method ≠ "" := by
    intro he
    have hlen := congrArg String.length he
    rw [String.length_append] at hlen
    have h18 : ("Method not found: " : String).length = 18 := rfl
    rw [h18] at hlen
    simp at hlen
  refine ⟨?_, ?_, ?_, by decide⟩
  · simp [handleRequest, h1id, h1m, h1p, h1i, sendErrorMsg, errMessage]
  · simp [handleRequest, h2id, h2m, h2p, h2i, h2h, sendErrorMsg, errMessage, hne]
  · simp [handleRequest, h3id, h3m, h3p, h3i, h3h, h3r, sendErrorMsg, errMessage, hmsg]

/-- Witness for the amended C8 at the three concrete scenarios. -/
theorem C8_witness :
    (handleRequest serverUninit toolsCallRequest).2.1
      = [OutMsg.errorMsg (JValue.num 2) (-32603) "Server not initialized"] ∧
    (handleRequest serverInit noSuchRequest).2.1
      = [OutMsg.errorMsg (JValue.num 4) (-32601) ("Method not found: " ++ "no/such")] ∧
    (handleRequest serverInit boomRequest).2.1
      = [OutMsg.errorMsg (JValue.num 3) (-32603) "boom"] ∧
    ((-32601 : Int) ≠ (-32603 : Int)) :=
  C8_amended_codes serverUninit serverInit serverInit toolsCallRequest noSuchRequest
    boomRequest (JValue.num 2) (JValue.num 4) (JValue.num 3) throwingHandler "boom"
    rfl rfl (by decide) (by decide) rfl rfl (by decide) (by decide) rfl
    rfl rfl (by decide) (by decide) rfl rfl (by decide)

/-- C9: the handler-level results substituted on HTTP 401 carry explicit
placeholder markers distinguishing them from real data: the image-details
placeholder (used when the search fallback finds nothing) flags
unavailability in its description and full_description, and the tags mock
marks its single entry with the unknown architecture and os sentinels and
the all-zero digest — neither is unmarked zero-valued data. -/
theorem C9_fallback_markers (repository nowIso : String) :
    strIncludes (getImageDetails401 repository none nowIso).description
      "not available" = true ∧
    strIncludes (getImageDetails401 repository none nowIso).full_description
      "not available" = true ∧
    (getImageDetails401 repository none nowIso).description
      = "Image details not available without authentication" ∧
    ((listTags401 nowIso).results.map (fun t => t.architecture)) = ["unknown"] ∧
    ((listTags401 nowIso).results.map (fun t => t.os)) = ["unknown"] ∧
    ((listTags401 nowIso).results.map (fun t => t.digest))
      = ["sha256:0000000000000000000000000000000000000000000000000000000000000000"] ∧
    ((listTags401 nowIso).results.map (fun t => t.name)) = ["latest"] ∧
    (listTags401 nowIso).results.length = 1 := by
  have hdesc : (getImageDetails401 repository none nowIso).description
      = "Image details not available without authentication" := rfl
  have hfull : (getImageDetails401 repository none nowIso).full_description
      = "Image details not available without authentication" := rfl
  refine ⟨?_, ?_, hdesc, rfl, rfl, rfl, rfl, rfl⟩
  · rw [hdesc]; decide
  · rw [hfull]; decide
